import Mathlib

/-!
Shallow embedding of the two CI helper scripts
`.github/scripts/shellcheck/extract_shell_info.py` and
`.github/scripts/shellcheck/run_shellcheck.py`, together with theorems
settling the specification claims about them.

Strings are modelled through their character lists (`String.data`); Python
`str.strip` is modelled on ASCII whitespace, Python `int(...)` parsing on
ASCII digits with the underscore grouping rule, and the two regular
expressions used by the scripts are modelled by hand-rolled matchers that
follow the (deterministic) backtracking behaviour of the patterns.
-/

namespace Shellcheck

/-- ASCII whitespace characters recognised by Python's `str.strip()`. -/
def isPyWs (c : Char) : Bool :=
  c = ' ' || c = '\t' || c = '\n' || c = '\x0d' || c = '\x0b' || c = '\x0c'

/-- Python `str.strip()` on the character-list view of a string. -/
def pyStripData (l : List Char) : List Char :=
  ((l.dropWhile isPyWs).reverse.dropWhile isPyWs).reverse

/-- Python `str.strip()`. -/
def pyStrip (s : String) : String := ⟨pyStripData s.data⟩

/-- Python `sub in s` (substring containment). -/
def containsSubstr (s sub : String) : Bool := decide (sub.data <:+: s.data)

/-- Python `s.startswith(p)`. -/
def pyStartsWith (s p : String) : Bool := decide (p.data <+: s.data)

/-- Python `s.endswith(p)`. -/
def pyEndsWith (s p : String) : Bool := decide (p.data <:+ s.data)

/-- Python `content.split('\n')` on character lists: the list of lines,
never empty, `[]` line for each empty segment. -/
def splitNl : List Char → List (List Char)
  | [] => [[]]
  | c :: rest =>
    match splitNl rest with
    | [] => [[]]
    | h :: t => if c = '\n' then [] :: h :: t else (c :: h) :: t

/-- The lines of a Python string, as strings (`content.split('\n')`). -/
def pyLines (s : String) : List String := (splitNl s.data).map fun l => ⟨l⟩

/-- `filter_trivial_issues` from `run_shellcheck.py`: drop blank lines and
every line containing one of the trivial codes (just `SC1071`). -/
def filter_trivial_issues (shellcheckOutput : String) : List String :=
  (pyLines shellcheckOutput).filter fun line =>
    pyStrip line ≠ "" && !(containsSubstr line "SC1071")

/-- Parse an ASCII digit run with Python's underscore grouping rule
(`int` accepts `1_0`), given the accumulated value of the digits read. -/
def digitsCore : List Char → Nat → Option Nat
  | [], acc => some acc
  | '_' :: c :: rest, acc =>
    if c.isDigit then digitsCore rest (acc * 10 + (c.toNat - '0'.toNat)) else none
  | ['_'], _ => none
  | c :: rest, acc =>
    if c.isDigit then digitsCore rest (acc * 10 + (c.toNat - '0'.toNat)) else none

/-- Value of a non-empty digit sequence (with underscore grouping), if valid. -/
def digitsVal : List Char → Option Nat
  | [] => none
  | c :: rest =>
    if c.isDigit then digitsCore rest (c.toNat - '0'.toNat) else none

/-- Python `int(s)` for an already-stripped string: optional sign followed
by digits (underscore grouping allowed); `none` models `ValueError`. -/
def pyParseInt (s : String) : Option Int :=
  match s.data with
  | '+' :: rest => (digitsVal rest).map Int.ofNat
  | '-' :: rest => (digitsVal rest).map fun n => -(n : Int)
  | l => (digitsVal l).map Int.ofNat

/-- Python `s.split(',')` as strings. -/
def splitComma (s : String) : List String :=
  (s.data.splitOn ',').map fun l => ⟨l⟩

/-- The list comprehension
`[int(x.strip()) for x in modified_lines_str.split(',') if x.strip()]`:
`none` models the `ValueError` raised when some non-blank token fails
`int(...)`. -/
def parseModifiedLines (s : String) : Option (List Int) :=
  let toks := (splitComma s).filter fun x => pyStrip x ≠ ""
  if toks.all fun x => (pyParseInt (pyStrip x)).isSome then
    some (toks.filterMap fun x => pyParseInt (pyStrip x))
  else
    none

/-- `is_line_modified` from `run_shellcheck.py`. -/
def is_line_modified (_filePath : String) (lineNum : Int)
    (modifiedLinesStr : String) : Bool :=
  if modifiedLinesStr = "all" then true
  else
    match parseModifiedLines modifiedLinesStr with
    | some lines => lines.contains lineNum
    | none => true

/-- The body of the `for line in f` loop of `load_modified_lines_map`:
strip each line and, when it contains a colon, record the
`split(':', 1)` pair; later lines with the same key overwrite earlier
ones, which is modelled by appending and looking up from the end. -/
def loadMapLines (lines : List String) : List (String × String) :=
  lines.foldl
    (fun acc line =>
      let l := pyStripData line.data
      if ':' ∈ l then
        let k := l.takeWhile fun c => c ≠ ':'
        acc ++ [((⟨k⟩ : String), (⟨l.drop (k.length + 1)⟩ : String))]
      else acc)
    []

/-- `load_modified_lines_map` from `run_shellcheck.py`: `none` content
models a missing file (`FileNotFoundError`); the second component is the
list of lines printed to standard error. -/
def load_modified_lines_map (mapFile : String) (content : Option String) :
    List (String × String) × List String :=
  match content with
  | none => ([], ["Warning: " ++ mapFile ++ " not found"])
  | some c => (loadMapLines (pyLines c), [])

/-- Python `dict` lookup with default `""` over the insertion-ordered
association list: the last binding of a key wins. -/
def dictGet (m : List (String × String)) (k : String) : String :=
  match m.reverse.lookup k with
  | some v => v
  | none => ""

/-- Numeric value of an ASCII digit run. -/
def natOfDigits (l : List Char) : Nat :=
  l.foldl (fun a c => a * 10 + (c.toNat - '0'.toNat)) 0

/-- The region a Python `$`-anchored match may cover: the whole string, or
everything before one final newline; `none` when a newline occurs anywhere
else (the pattern components at hand cannot match a newline). -/
def chopDollar (l : List Char) : Option (List Char) :=
  let core := if l.getLast? = some '\n' then l.dropLast else l
  if '\n' ∈ core then none else some core

/-- The regex `^([^:]+):(\d+):\d+:.*$` of `run_shellcheck.py`'s main loop:
on success, the file path (group 1) and the line number (group 2). -/
def gccMatch (line : String) : Option (String × Nat) :=
  let l := line.data
  let pre := l.takeWhile fun c => c ≠ ':'
  if pre = [] then none
  else
    match l.drop pre.length with
    | ':' :: rest =>
      let d1 := rest.takeWhile Char.isDigit
      if d1 = [] then none
      else
        match rest.drop d1.length with
        | ':' :: rest2 =>
          let d2 := rest2.takeWhile Char.isDigit
          if d2 = [] then none
          else
            match rest2.drop d2.length with
            | ':' :: tail =>
              if '\n' ∈ tail.dropLast then none
              else some ((⟨pre⟩ : String), natOfDigits d1)
            | _ => none
        | _ => none
    | _ => none

/-- One iteration of the diff-filtering loop in `run_shellcheck.py`'s
`main`: a line is kept exactly when it is non-blank, matches the GCC
format, its file has a non-empty entry in the map, and `is_line_modified`
accepts it. -/
def keepLine (m : List (String × String)) (line : String) : Bool :=
  pyStrip line ≠ "" &&
    match gccMatch line with
    | some (fp, n) =>
      let mls := dictGet m fp
      mls ≠ "" && is_line_modified fp (Int.ofNat n) mls
    | none => false

/-- The `diff_filtered_lines` list built by `run_shellcheck.py`'s `main`. -/
def diffFilteredLines (m : List (String × String)) (lines : List String) :
    List String :=
  lines.filter (keepLine m)

/-- Observable outcome of `run_shellcheck.py`'s `main` on the
two-argument path, as a function of the combined linter output and the
content of the modified-lines map file (`none` = missing). -/
structure RunResult where
  rawFile : String
  filteredLines : List String
  diffFiltered : List String
  totalIssues : Nat
  exitCodePrinted : Nat
  summaryStdout : List String
  processStatus : Nat
deriving DecidableEq

/-- `main` of `run_shellcheck.py` after the linter has produced
`rawOutput`: the function falls off the end of `main` without calling
`sys.exit`, so the process status on this path is 0. -/
def runShellcheckMain (rawOutput : String) (mapFileName : String)
    (mapContent : Option String) : RunResult :=
  let filtered := filter_trivial_issues rawOutput
  let m := (load_modified_lines_map mapFileName mapContent).1
  let dfl := diffFilteredLines m filtered
  let ti := dfl.length
  let ec := if ti > 0 then 1 else 0
  { rawFile := rawOutput
    filteredLines := filtered
    diffFiltered := dfl
    totalIssues := ti
    exitCodePrinted := ec
    summaryStdout := ["total_issues=" ++ toString ti, "exit_code=" ++ toString ec]
    processStatus := 0 }

/-- `is_shell_script` from `extract_shell_info.py`, over a file system
modelled as a partial map from paths to contents (`none` = missing or
unreadable). -/
def is_shell_script (fs : String → Option String) (filePath : String) : Bool :=
  if pyEndsWith filePath ".sh" || pyEndsWith filePath ".bash" then true
  else
    match fs filePath with
    | some content =>
      let firstLine := pyStrip ⟨(splitNl content.data).headD []⟩
      pyStartsWith firstLine "#!" &&
        (containsSubstr firstLine "bash" || containsSubstr firstLine "sh")
    | none => false

/-- Strip a literal prefix from a character list. -/
def dropPfx : List Char → List Char → Option (List Char)
  | [], l => some l
  | _ :: _, [] => none
  | p :: ps, c :: cs => if c = p then dropPfx ps cs else none

/-- The regex `^diff --git a/(.+) b/(.+)$`: group 1, with the greedy
`(.+)` choosing the last occurrence of `" b/"` that leaves both groups
non-empty. -/
def gitDiffMatch (line : String) : Option String :=
  match chopDollar line.data with
  | none => none
  | some l =>
    match dropPfx "diff --git a/".data l with
    | none => none
    | some rest =>
      let sep := " b/".data
      let idxs := (List.range (rest.length + 1)).filter fun i =>
        decide (1 ≤ i) && decide (sep <+: rest.drop i) &&
          decide (i + sep.length < rest.length)
      match idxs.max? with
      | some i => some (⟨rest.take i⟩ : String)
      | none => none

/-- `\s+`: at least one whitespace character, consumed greedily. -/
def eatWs1 (l : List Char) : Option (List Char) :=
  if l.takeWhile isPyWs = [] then none else some (l.dropWhile isPyWs)

/-- `(\d+)`: a non-empty digit run, consumed greedily, with its value. -/
def eatDigits1 (l : List Char) : Option (Nat × List Char) :=
  let ds := l.takeWhile Char.isDigit
  if ds = [] then none else some (natOfDigits ds, l.drop ds.length)

/-- `(?:,\d+)?`: consume a comma and digits when present, else leave the
input unchanged (a skipped group leaves `\s+` to fail on the comma). -/
def eatOptCommaDigits : List Char → List Char
  | ',' :: rest =>
    match eatDigits1 rest with
    | some (_, r) => r
    | none => ',' :: rest
  | l => l

/-- The regex `^@@\s+-\d+(?:,\d+)?\s+\+(\d+)(?:,\d+)?\s+@@` of
`parse_diff_file` (a prefix match): on success, the new-start line number
(group 1). -/
def hunkMatch (line : String) : Option Nat := do
  let r1 ← dropPfx "@@".data line.data
  let r2 ← eatWs1 r1
  let r3 ← dropPfx ['-'] r2
  let (_, r4) ← eatDigits1 r3
  let r5 := eatOptCommaDigits r4
  let r6 ← eatWs1 r5
  let r7 ← dropPfx ['+'] r6
  let (n, r8) ← eatDigits1 r7
  let r9 := eatOptCommaDigits r8
  let r10 ← eatWs1 r9
  let _ ← dropPfx "@@".data r10
  pure n

/-- Insert a line number into a sorted duplicate-free list: the model of
`set.add` combined with the later `sorted(...)`. -/
def insertLine (n : Nat) : List Nat → List Nat
  | [] => [n]
  | m :: rest =>
    if n < m then n :: m :: rest
    else if n = m then m :: rest
    else m :: insertLine n rest

/-- `modified_lines[current_file].add(n)` on the association-list model of
the `defaultdict(set)` (an absent key gets a fresh entry). -/
def addLine : List (String × List Nat) → String → Nat → List (String × List Nat)
  | [], f, n => [(f, [n])]
  | (g, ls) :: rest, f, n =>
    if g = f then (g, insertLine n ls) :: rest else (g, ls) :: addLine rest f n

/-- Lines recorded for a file by the parsed diff (`none` = no entry). -/
def lookupLines (m : List (String × List Nat)) (f : String) : Option (List Nat) :=
  m.lookup f

/-- State of `parse_diff_file`'s scan: `current_file`, `current_line_num`
and the modified-lines map. -/
structure DiffState where
  currentFile : Option String
  currentLineNum : Nat
  modified : List (String × List Nat)
deriving DecidableEq

/-- The trailing `Process diff lines` block of `parse_diff_file`'s loop:
added lines are recorded and advance the counter, context lines only
advance it, everything else (including deletions) leaves it unchanged. -/
def stepBody (st : DiffState) (line : String) : DiffState :=
  match st.currentFile with
  | some f =>
    if st.currentLineNum > 0 then
      if pyStartsWith line "+" && !(pyStartsWith line "+++") then
        { st with
          modified := addLine st.modified f st.currentLineNum
          currentLineNum := st.currentLineNum + 1 }
      else if pyStartsWith line " " then
        { st with currentLineNum := st.currentLineNum + 1 }
      else st
    else st
  | none => st

/-- One iteration of `parse_diff_file`'s loop: a `diff --git` header sets
the current file, a hunk header (with a current file) resets the line
counter, any other line is handled by `stepBody`. -/
def parseDiffLine (st : DiffState) (line : String) : DiffState :=
  match gitDiffMatch line with
  | some f => { st with currentFile := some f }
  | none =>
    match hunkMatch line with
    | some n =>
      if st.currentFile.isSome then { st with currentLineNum := n }
      else stepBody st line
    | none => stepBody st line

/-- `parse_diff_file`'s scan over the diff text. -/
def parse_diff_content (content : String) : List (String × List Nat) :=
  ((pyLines content).foldl parseDiffLine ⟨none, 0, []⟩).modified

/-- `parse_diff_file` over the file-system model; the second component is
the list of lines printed to standard error. -/
def parse_diff_file (fs : String → Option String) (diffPath : String) :
    List (String × List Nat) × List String :=
  match fs diffPath with
  | none => ([], ["Error: " ++ diffPath ++ " not found"])
  | some c => (parse_diff_content c, [])

/-- `','.join(map(str, sorted(...)))` on the already-sorted list model. -/
def lineNumsStr (ls : List Nat) : String :=
  String.intercalate "," (ls.map toString)

/-- The line written to `modified_lines_map.txt` for one shell script:
`path:n1,...,nk` when the parsed diff has a non-empty entry for it, and
`path:all` otherwise. -/
def mapEntryLine (ml : List (String × List Nat)) (script : String) : String :=
  match lookupLines ml script with
  | some ls => if ls ≠ [] then script ++ ":" ++ lineNumsStr ls else script ++ ":all"
  | none => script ++ ":all"

/-- All lines of `modified_lines_map.txt`, in changeset order. -/
def writeMapLines (scripts : List String) (ml : List (String × List Nat)) :
    List String :=
  scripts.map (mapEntryLine ml)

/-- Observable outcome of `extract_shell_info.py`'s `main` on the
two-argument path: the output files are `none` when the process exits
before writing them. -/
structure ExtractResult where
  exitStatus : Nat
  stderrLines : List String
  shellScriptsOut : Option (List String)
  mapOut : Option (List String)
deriving DecidableEq

/-- `main` of `extract_shell_info.py` over the file-system model. -/
def extractMain (fs : String → Option String) (changesetFile diffFile : String) :
    ExtractResult :=
  match fs changesetFile with
  | none => ⟨1, ["Error: " ++ changesetFile ++ " not found"], none, none⟩
  | some content =>
    let changedFiles := ((pyLines content).map pyStrip).filter fun l => l ≠ ""
    let shellScripts := changedFiles.filter (is_shell_script fs)
    if shellScripts ≠ [] then
      let pd := parse_diff_file fs diffFile
      ⟨0, pd.2, some shellScripts, some (writeMapLines shellScripts pd.1)⟩
    else
      ⟨0, [], some shellScripts, some []⟩

end Shellcheck

namespace Shellcheck

theorem splitNl_ne_nil (l : List Char) : splitNl l ≠ [] := by
  cases l with
  | nil => simp [splitNl]
  | cons c t =>
    simp only [splitNl]
    cases splitNl t with
    | nil => simp
    | cons h t' => by_cases hc : c = '\n' <;> simp [hc]

theorem splitNl_no_nl (l : List Char) (h : '\n' ∉ l) : splitNl l = [l] := by
  induction l with
  | nil => rfl
  | cons c t ih =>
    have hc : c ≠ '\n' := fun e => h (e ▸ List.mem_cons_self c t)
    have ht : '\n' ∉ t := fun m => h (List.mem_cons_of_mem _ m)
    simp [splitNl, ih ht, hc]

theorem splitNl_append (a l : List Char) (h : '\n' ∉ a) :
    splitNl (a ++ '\n' :: l) = a :: splitNl l := by
  induction a with
  | nil =>
    obtain ⟨h0, t0, he⟩ : ∃ h0 t0, splitNl l = h0 :: t0 := by
      cases hsl : splitNl l with
      | nil => exact absurd hsl (splitNl_ne_nil l)
      | cons x y => exact ⟨x, y, rfl⟩
    simp [splitNl, he]
  | cons c t ih =>
    have hc : c ≠ '\n' := fun e => h (e ▸ List.mem_cons_self c t)
    have ht : '\n' ∉ t := fun m => h (List.mem_cons_of_mem _ m)
    simp [splitNl, ih ht, hc]

theorem chopDollar_no_nl (l : List Char) (h : '\n' ∉ l) : chopDollar l = some l := by
  have h1 : ¬ l.getLast? = some '\n' := fun e => h (List.mem_of_getLast?_eq_some e)
  simp [chopDollar, h1, h]

theorem dropPfx_head_ne (p : Char) (ps : List Char) (c : Char) (cs : List Char)
    (h : c ≠ p) : dropPfx (p :: ps) (c :: cs) = none := by
  simp [dropPfx, h]

theorem gitDiffMatch_head_ne (line : String) (c : Char) (t : List Char)
    (hd : line.data = c :: t) (hc : c ≠ 'd') (hn : '\n' ∉ line.data) :
    gitDiffMatch line = none := by
  unfold gitDiffMatch
  rw [chopDollar_no_nl line.data hn, hd]
  have hnone : dropPfx "diff --git a/".data (c :: t) = none := by
    have e : "diff --git a/".data = 'd' :: "iff --git a/".data := rfl
    rw [e]; exact dropPfx_head_ne _ _ _ _ hc
  simp [hnone]

theorem hunkMatch_head_ne (line : String) (c : Char) (t : List Char)
    (hd : line.data = c :: t) (hc : c ≠ '@') : hunkMatch line = none := by
  unfold hunkMatch
  rw [hd]
  have hnone : dropPfx "@@".data (c :: t) = none := by
    have e : "@@".data = '@' :: "@".data := rfl
    rw [e]; exact dropPfx_head_ne _ _ _ _ hc
  simp [hnone]

theorem startsWith_data (line p : String) (h : pyStartsWith line p = true) :
    p.data <+: line.data := of_decide_eq_true h

theorem pyStartsWith_head_ne (line : String) (c : Char) (t : List Char)
    (p : Char) (ps : List Char) (pstr : String)
    (hd : line.data = c :: t) (hp : pstr.data = p :: ps) (h : c ≠ p) :
    pyStartsWith line pstr = false := by
  unfold pyStartsWith
  rw [hd, hp]
  apply decide_eq_false
  intro hpre
  rw [List.cons_prefix_cons] at hpre
  exact h hpre.1.symm

theorem containsSubstr_of_endsWith (s t : String) (h : pyEndsWith s t = true) :
    containsSubstr s t = true :=
  decide_eq_true (List.IsSuffix.isInfix (of_decide_eq_true h))

end Shellcheck

namespace Shellcheck

/-- Claim C1: `run_shellcheck.py`'s `main` prints `total_issues=<n>` where
`n` is the number of lines of the diff-filtered output, prints
`exit_code=1` when `n > 0` and `exit_code=0` otherwise, and never sets the
process exit status to the computed exit code: on this path the process
terminates normally with status 0. -/
theorem spec_C1 (raw mapFileName : String) (mapContent : Option String) :
    (runShellcheckMain raw mapFileName mapContent).totalIssues
        = (runShellcheckMain raw mapFileName mapContent).diffFiltered.length ∧
    (runShellcheckMain raw mapFileName mapContent).summaryStdout
        = ["total_issues="
              ++ toString (runShellcheckMain raw mapFileName mapContent).totalIssues,
           "exit_code="
              ++ toString (runShellcheckMain raw mapFileName mapContent).exitCodePrinted] ∧
    (runShellcheckMain raw mapFileName mapContent).exitCodePrinted
        = (if 0 < (runShellcheckMain raw mapFileName mapContent).totalIssues
           then 1 else 0) ∧
    (runShellcheckMain raw mapFileName mapContent).processStatus = 0 :=
  ⟨rfl, rfl, rfl, rfl⟩

/-- Claim C4: with the modified-lines map entry `file.sh:5,7`, a GCC-format
finding on line 6 of `file.sh` is excluded from the diff-filtered output
while a finding on line 5 is included; equivalently,
`is_line_modified(file, 6, "5,7")` is false and
`is_line_modified(file, 5, "5,7")` is true. -/
theorem spec_C4 :
    is_line_modified "file.sh" 6 "5,7" = false ∧
    is_line_modified "file.sh" 5 "5,7" = true ∧
    diffFilteredLines (loadMapLines ["file.sh:5,7"])
        ["file.sh:6:1: warning: x"] = [] ∧
    diffFilteredLines (loadMapLines ["file.sh:5,7"])
        ["file.sh:5:1: warning: x"] = ["file.sh:5:1: warning: x"] := by
  decide

/-- Claim C5, counterexample: the single-space line is non-empty and does
not contain `SC1071`, yet `filter_trivial_issues` does not retain it (the
code drops every line that is blank after stripping). -/
theorem spec_C5_cex :
    pyLines " " = [" "] ∧ (" " : String) ≠ "" ∧
    containsSubstr " " "SC1071" = false ∧ filter_trivial_issues " " = [] := by
  decide

/-- Claim C5, amended: `filter_trivial_issues` removes every line
containing the substring `SC1071` and every line that is blank after
stripping whitespace; every line with non-whitespace content that does not
contain `SC1071` is retained verbatim, in its original order (the result
is a sublist of the input lines). -/
theorem spec_C5 (out : String) :
    (∀ l ∈ filter_trivial_issues out, containsSubstr l "SC1071" = false) ∧
    List.Sublist (filter_trivial_issues out) (pyLines out) ∧
    (∀ l ∈ pyLines out, pyStrip l ≠ "" → containsSubstr l "SC1071" = false →
      l ∈ filter_trivial_issues out) := by
  unfold filter_trivial_issues
  refine ⟨?_, List.filter_sublist _, ?_⟩
  · intro l hl
    have hp := (List.mem_filter.mp hl).2
    simp only [Bool.and_eq_true, Bool.not_eq_true', decide_eq_true_eq] at hp
    exact hp.2
  · intro l hl h1 h2
    refine List.mem_filter.mpr ⟨hl, ?_⟩
    simp [h1, h2]

/-- Witness for the amended C5 at a concrete linter output. -/
theorem spec_C5_witness :
    " ok line" ∈ filter_trivial_issues "bad SC1071\n \n ok line" :=
  (spec_C5 "bad SC1071\n \n ok line").2.2 " ok line" (by decide) (by decide)
    (by decide)

/-- Claim C8, counterexample: `"5,,"` is not `"all"` and its
comma-separated token list contains the token `""`, which is not parseable
as an integer, yet `is_line_modified` returns false for line 6 (blank
tokens are discarded before parsing, so no `ValueError` occurs). -/
theorem spec_C8_cex :
    ("5,," : String) ≠ "all" ∧ ("" : String) ∈ splitComma "5,," ∧
    pyParseInt (pyStrip "") = none ∧
    is_line_modified "f" 6 "5,," = false := by
  decide

/-- Claim C8, amended: for every file path, line number, and
modified-lines string other than `"all"` whose comma-separated token list
contains a token that is non-blank after stripping and not parseable as an
integer, `is_line_modified` returns true regardless of the queried line. -/
theorem spec_C8 (fp : String) (ln : Int) (s : String) (hall : s ≠ "all")
    (h : ∃ t ∈ splitComma s, pyStrip t ≠ "" ∧ pyParseInt (pyStrip t) = none) :
    is_line_modified fp ln s = true := by
  obtain ⟨t, ht, hne, hnone⟩ := h
  have hmem : t ∈ (splitComma s).filter (fun x => pyStrip x ≠ "") :=
    List.mem_filter.mpr ⟨ht, by simp [hne]⟩
  have hall2 : ¬ ((splitComma s).filter (fun x => pyStrip x ≠ "")).all
      (fun x => (pyParseInt (pyStrip x)).isSome) = true := by
    intro hA
    have h2 := List.all_eq_true.mp hA t hmem
    rw [hnone] at h2
    simp at h2
  have hpm : parseModifiedLines s = none := by
    simp only [parseModifiedLines]
    rw [if_neg hall2]
  simp [is_line_modified, hall, hpm]

/-- Witness for the amended C8 at a concrete unparseable token list. -/
theorem spec_C8_witness : is_line_modified "f" 6 "5,x,7" = true :=
  spec_C8 "f" 6 "5,x,7" (by decide) ⟨"x", by decide, by decide, by decide⟩

/-- Claim C10: a GCC-format finding whose file path has no entry in the
loaded modified-lines map, or whose entry is the empty string, is excluded
from the diff-filtered output even if it survived the trivial-issue
filter. -/
theorem spec_C10 (m : List (String × String)) (lines : List String)
    (line fp : String) (n : Nat)
    (hm : gccMatch line = some (fp, n))
    (hmap : m.reverse.lookup fp = none ∨ m.reverse.lookup fp = some "") :
    line ∉ diffFilteredLines m lines := by
  intro hmem
  unfold diffFilteredLines at hmem
  have hk := (List.mem_filter.mp hmem).2
  have hget : dictGet m fp = "" := by
    unfold dictGet
    rcases hmap with h | h <;> rw [h]
  simp only [keepLine, hm, hget] at hk
  simp at hk

/-- Witness for C10 at a concrete map without an entry for the file. -/
theorem spec_C10_witness :
    "file.sh:5:1: warning: x" ∉ diffFilteredLines [("other.sh", "3")]
      ["file.sh:5:1: warning: x"] :=
  spec_C10 [("other.sh", "3")] ["file.sh:5:1: warning: x"]
    "file.sh:5:1: warning: x" "file.sh" 5 (by decide) (Or.inl (by decide))

end Shellcheck

namespace Shellcheck

theorem parseDiffLine_added (st : DiffState) (f : String) (line : String)
    (hcf : st.currentFile = some f) (hnum : 0 < st.currentLineNum)
    (h1 : pyStartsWith line "+" = true) (h2 : pyStartsWith line "+++" = false)
    (hn : '\n' ∉ line.data) :
    parseDiffLine st line =
      { st with
        modified := addLine st.modified f st.currentLineNum
        currentLineNum := st.currentLineNum + 1 } := by
  obtain ⟨t, ht⟩ := startsWith_data line "+" h1
  have hd : line.data = '+' :: t := by rw [← ht]; rfl
  have hgit := gitDiffMatch_head_ne line '+' t hd (by decide) hn
  have hhunk := hunkMatch_head_ne line '+' t hd (by decide)
  simp [parseDiffLine, hgit, hhunk, stepBody, hcf, hnum, h1, h2]

/-- Claim C2, counterexample: in the diff below, the context line
`" context"` sits at line 1 of the new revision of `f.sh`, but
`parse_diff_file` records only the added line's number 2 — context lines
are not counted as modified. -/
theorem spec_C2_cex :
    lookupLines (parse_diff_content
        "diff --git a/f.sh b/f.sh\n@@ -1,2 +1,2 @@\n context\n+added") "f.sh"
      = some [2] ∧
    (1 : Nat) ∉ ((lookupLines (parse_diff_content
        "diff --git a/f.sh b/f.sh\n@@ -1,2 +1,2 @@\n context\n+added") "f.sh").getD []) := by
  decide

/-- Claim C2, amended: a line left as context (one starting with a space)
advances the new-revision line counter when a hunk is active but is never
added to the modified-lines map; only added lines are recorded. -/
theorem spec_C2 (st : DiffState) (line : String)
    (hsp : pyStartsWith line " " = true) (hn : '\n' ∉ line.data) :
    (parseDiffLine st line).modified = st.modified ∧
    (∀ f, st.currentFile = some f → 0 < st.currentLineNum →
      (parseDiffLine st line).currentLineNum = st.currentLineNum + 1) := by
  obtain ⟨t, ht⟩ := startsWith_data line " " hsp
  have hd : line.data = ' ' :: t := by rw [← ht]; rfl
  have hgit := gitDiffMatch_head_ne line ' ' t hd (by decide) hn
  have hhunk := hunkMatch_head_ne line ' ' t hd (by decide)
  have hplus : pyStartsWith line "+" = false :=
    pyStartsWith_head_ne line ' ' t '+' [] "+" hd rfl (by decide)
  have hpl : parseDiffLine st line = stepBody st line := by
    simp [parseDiffLine, hgit, hhunk]
  rw [hpl]
  cases hcf : st.currentFile with
  | none => simp [stepBody, hcf]
  | some f =>
    by_cases hnum : 0 < st.currentLineNum
    · constructor
      · simp [stepBody, hcf, hnum, hplus, hsp]
      · intro f' _ _
        simp [stepBody, hcf, hnum, hplus, hsp]
    · constructor
      · simp [stepBody, hcf, hnum]
      · intro f' _ hc
        exact absurd hc hnum

/-- Witness for the amended C2 at a concrete state and context line. -/
theorem spec_C2_witness :
    (parseDiffLine ⟨some "f.sh", 3, [("g.sh", [1])]⟩ " unchanged").modified
        = [("g.sh", [1])] ∧
    (parseDiffLine ⟨some "f.sh", 3, [("g.sh", [1])]⟩ " unchanged").currentLineNum
        = 3 + 1 := by
  have h := spec_C2 ⟨some "f.sh", 3, [("g.sh", [1])]⟩ " unchanged"
    (by decide) (by decide)
  exact ⟨h.1, h.2 "f.sh" rfl (by decide)⟩

/-- Claim C3: for a diff whose hunk header `@@ -1,3 +10,3 @@` (under the
file header of `file.sh`) is followed by one added line — any line
starting with `+` and not `+++`, with no embedded newline —
`parse_diff_file` records exactly line 10 as modified for `file.sh`. -/
theorem spec_C3 (line : String)
    (h1 : pyStartsWith line "+" = true)
    (h2 : pyStartsWith line "+++" = false)
    (hn : '\n' ∉ line.data) :
    lookupLines (parse_diff_content
        ("diff --git a/file.sh b/file.sh\n@@ -1,3 +10,3 @@\n" ++ line)) "file.sh"
      = some [10] := by
  have e0 : "diff --git a/file.sh b/file.sh\n@@ -1,3 +10,3 @@\n".data
      = "diff --git a/file.sh b/file.sh".data ++ '\n' ::
        ("@@ -1,3 +10,3 @@".data ++ ['\n']) := by decide
  have e1 : ("diff --git a/file.sh b/file.sh\n@@ -1,3 +10,3 @@\n" ++ line).data
      = "diff --git a/file.sh b/file.sh".data ++ '\n' ::
        ("@@ -1,3 +10,3 @@".data ++ '\n' :: line.data) := by
    rw [String.data_append, e0]
    simp [List.append_assoc]
  have hl : pyLines ("diff --git a/file.sh b/file.sh\n@@ -1,3 +10,3 @@\n" ++ line)
      = ["diff --git a/file.sh b/file.sh", "@@ -1,3 +10,3 @@", line] := by
    unfold pyLines
    rw [e1, splitNl_append _ _ (by decide), splitNl_append _ _ (by decide),
      splitNl_no_nl _ hn]
    rfl
  unfold parse_diff_content
  rw [hl]
  simp only [List.foldl_cons, List.foldl_nil]
  have step1 : parseDiffLine ⟨none, 0, []⟩ "diff --git a/file.sh b/file.sh"
      = ⟨some "file.sh", 0, []⟩ := by decide
  have step2 : parseDiffLine ⟨some "file.sh", 0, []⟩ "@@ -1,3 +10,3 @@"
      = ⟨some "file.sh", 10, []⟩ := by decide
  rw [step1, step2,
    parseDiffLine_added ⟨some "file.sh", 10, []⟩ "file.sh" line rfl
      (by decide) h1 h2 hn]
  decide

/-- Witness for C3 at a concrete added line. -/
theorem spec_C3_witness :
    lookupLines (parse_diff_content
        ("diff --git a/file.sh b/file.sh\n@@ -1,3 +10,3 @@\n" ++ "+echo hi")) "file.sh"
      = some [10] :=
  spec_C3 "+echo hi" (by decide) (by decide) (by decide)

/-- Claim C6: a shell script of the changeset with no entry in the parsed
diff (or an empty entry) gets exactly the line `path:all` in
`modified_lines_map.txt`. -/
theorem spec_C6 (scripts : List String) (ml : List (String × List Nat))
    (p : String) (hp : p ∈ scripts)
    (h : lookupLines ml p = none ∨ lookupLines ml p = some []) :
    mapEntryLine ml p = p ++ ":all" ∧
    (p ++ ":all") ∈ writeMapLines scripts ml := by
  have he : mapEntryLine ml p = p ++ ":all" := by
    unfold mapEntryLine
    rcases h with h | h
    · rw [h]
    · rw [h]; simp
  refine ⟨he, ?_⟩
  unfold writeMapLines
  exact List.mem_map.mpr ⟨p, hp, he⟩

/-- Witness for C6 at a concrete new file. -/
theorem spec_C6_witness :
    mapEntryLine [] "new.sh" = "new.sh" ++ ":all" ∧
    ("new.sh" ++ ":all") ∈ writeMapLines ["new.sh"] [] :=
  spec_C6 ["new.sh"] [] "new.sh" (by decide) (Or.inl (by decide))

/-- Claim C7: a missing changeset file makes `extract_shell_info.py` print
an error to standard error and exit with status 1, while a missing
modified-lines map file makes `run_shellcheck.py` print a warning, use an
empty mapping, and continue to normal termination. -/
theorem spec_C7 (fs : String → Option String) (cs df : String)
    (hcs : fs cs = none) (raw mf : String) :
    (extractMain fs cs df).exitStatus = 1 ∧
    (extractMain fs cs df).stderrLines = ["Error: " ++ cs ++ " not found"] ∧
    load_modified_lines_map mf none
        = ([], ["Warning: " ++ mf ++ " not found"]) ∧
    (runShellcheckMain raw mf none).processStatus = 0 ∧
    (runShellcheckMain raw mf none).diffFiltered
        = diffFilteredLines [] (filter_trivial_issues raw) := by
  have he : extractMain fs cs df
      = ⟨1, ["Error: " ++ cs ++ " not found"], none, none⟩ := by
    unfold extractMain
    rw [hcs]
  rw [he]
  exact ⟨rfl, rfl, rfl, rfl, rfl⟩

/-- Witness for C7 at concrete missing files. -/
theorem spec_C7_witness :
    (extractMain (fun _ => none) "changeset.txt" "pr.diff").exitStatus = 1 ∧
    (extractMain (fun _ => none) "changeset.txt" "pr.diff").stderrLines
        = ["Error: " ++ "changeset.txt" ++ " not found"] ∧
    load_modified_lines_map "map.txt" none
        = ([], ["Warning: " ++ "map.txt" ++ " not found"]) ∧
    (runShellcheckMain "x:1:2: w" "map.txt" none).processStatus = 0 ∧
    (runShellcheckMain "x:1:2: w" "map.txt" none).diffFiltered
        = diffFilteredLines [] (filter_trivial_issues "x:1:2: w") :=
  spec_C7 (fun _ => none) "changeset.txt" "pr.diff" rfl "x:1:2: w" "map.txt"

/-- Claim C9: a readable file whose path has neither a `.sh` nor a `.bash`
extension but whose stripped first line is a shebang of the form
`#!...bash` or `#!...sh` is classified as a shell script. -/
theorem spec_C9 (fs : String → Option String) (p content : String)
    (hsh : pyEndsWith p ".sh" = false) (hbash : pyEndsWith p ".bash" = false)
    (hfs : fs p = some content)
    (hshebang : pyStartsWith (pyStrip ⟨(splitNl content.data).headD []⟩) "#!" = true)
    (hform : pyEndsWith (pyStrip ⟨(splitNl content.data).headD []⟩) "bash" = true ∨
             pyEndsWith (pyStrip ⟨(splitNl content.data).headD []⟩) "sh" = true) :
    is_shell_script fs p = true := by
  have hc : containsSubstr (pyStrip ⟨(splitNl content.data).headD []⟩) "bash" = true ∨
      containsSubstr (pyStrip ⟨(splitNl content.data).headD []⟩) "sh" = true :=
    hform.imp (containsSubstr_of_endsWith _ _) (containsSubstr_of_endsWith _ _)
  have hbranch : is_shell_script fs p
      = (pyStartsWith (pyStrip ⟨(splitNl content.data).headD []⟩) "#!" &&
          (containsSubstr (pyStrip ⟨(splitNl content.data).headD []⟩) "bash" ||
           containsSubstr (pyStrip ⟨(splitNl content.data).headD []⟩) "sh")) := by
    unfold is_shell_script
    rw [hsh, hbash, hfs]
    rfl
  rw [hbranch, hshebang]
  rcases hc with h | h
  · rw [h]; rfl
  · rw [h, Bool.or_true]; rfl

/-- Witness for C9 at a concrete extensionless script with an `sh` shebang. -/
theorem spec_C9_witness :
    is_shell_script
      (fun q => if q = "deploy" then some "#!/bin/sh\necho hi" else none)
      "deploy" = true :=
  spec_C9 (fun q => if q = "deploy" then some "#!/bin/sh\necho hi" else none)
    "deploy" "#!/bin/sh\necho hi" (by decide) (by decide) (by decide)
    (by decide) (Or.inr (by decide))

end Shellcheck
